import Mathlib

/-!
Verification of the ResQLink mesh simulator (`messages.py`, `lml_model.py`,
`mesh.py`) against its natural-language specification.

The Python code is shallowly embedded: Python floats become exact rationals
(every literal used by the code — 0.8, 2.5, 0.2, -1e9, … — is exactly
representable, and the inequalities decided below are never within float
rounding error of a tie), Python strings become `String`/`List Char`,
Python dicts holding fixed keys become structures, and the mutation of a
`Message`/node performed by `Node.process_message` becomes an explicit
state-passing function returning the updated node state, the updated
message, and the (optional) hand-off to a neighbor queue.  The two sources
of randomness that feed `process_message` (the per-neighbor link statistics
and the transmission-loss draw) are passed in as explicit arguments, so the
embedded function covers every possible draw.
-/

/-- `MsgType` enum from `messages.py`. -/
inductive MsgType where
  | DISTRESS
  | GPS
  | STATUS
  | SUPPLY
  | UNKNOWN
deriving DecidableEq, Repr

/-- The `Message` dataclass from `messages.py`.  `meta` is only ever used
through its `tag_distress` key, embedded as the boolean `tagDistress`. -/
structure Message where
  src : String
  dst : Option String
  text : String
  gps : Option (ℚ × ℚ)
  timestamp : ℚ
  id : String
  tagDistress : Bool
  priority : ℚ
  mtype : MsgType
  hops : ℕ
  path : List String
deriving DecidableEq, Repr

/-- `softclip(x, lo, hi) = max(lo, min(hi, x))` from `lml_model.py`. -/
def softclip (x lo hi : ℚ) : ℚ := max lo (min hi x)

/-- Python substring containment `needle in hay` on character lists. -/
def containsSub (needle : List Char) : List Char → Bool
  | [] => needle.isEmpty
  | c :: rest => needle.isPrefixOf (c :: rest) || containsSub needle rest

/-- Python `str.lower()` followed by viewing the text as a char list
(the texts involved are ASCII, where `Char.toLower` agrees with Python). -/
def lowerText (s : String) : List Char := s.toList.map Char.toLower

/-- Python whitespace characters recognised by `str.strip()` (ASCII). -/
def isPySpace (c : Char) : Bool :=
  c.toNat == 32 || c.toNat == 9 || c.toNat == 10 ||
    c.toNat == 13 || c.toNat == 11 || c.toNat == 12

/-- `DISTRESS_KEYWORDS` from `lml_model.py`. -/
def DISTRESS_KEYWORDS : List String :=
  [r"help", r"mayday", r"sos", r"emergency", r"trapped", r"injury",
   r"bleeding", r"collapsed", r"fire", r"danger", r"earthquake", r"flood",
   r"hurricane", r"wildfire", r"bomb", r"attack"]

/-- `GPS_KEYWORDS` from `lml_model.py`. -/
def GPS_KEYWORDS : List String :=
  [r"lat", r"lon", r"gps", r"coordinates", r"location", r"pos", r"grid"]

/-- `SUPPLY_KEYWORDS` from `lml_model.py`. -/
def SUPPLY_KEYWORDS : List String :=
  [r"water", r"food", r"medicine", r"insulin", r"tent", r"blanket",
   r"generator", r"fuel"]

/-- `STATUS_KEYWORDS` from `lml_model.py`. -/
def STATUS_KEYWORDS : List String :=
  [r"ok", r"alive", r"safe", r"status", r"update", r"checkin", r"fine"]

/-- Number of keywords of a set occurring as substrings of the text: the
`for w in KEYWORDS: if w in text: score += 1` loops of `classify`. -/
def kwScore (kws : List String) (text : List Char) : ℕ :=
  (kws.filter (fun w => containsSub w.toList text)).length

/-- Python `max(score, key=score.get)` over the insertion-ordered score
dict: the first key attaining the maximum wins (later keys must be
strictly greater to displace the current best). -/
def pickBest (init : MsgType × ℚ) (rest : List (MsgType × ℚ)) : MsgType × ℚ :=
  rest.foldl (fun b x => if x.2 > b.2 then x else b) init

/-- `LMLModel.classify` from `lml_model.py`. -/
def classify (msg : Message) : MsgType × ℚ :=
  let text := lowerText msg.text
  let dS : ℚ := kwScore DISTRESS_KEYWORDS text
  let gS : ℚ := (kwScore GPS_KEYWORDS text : ℚ) + (if msg.gps.isSome then 5/2 else 0)
  let sS : ℚ := kwScore SUPPLY_KEYWORDS text
  let stS : ℚ := kwScore STATUS_KEYWORDS text
  if text.all isPySpace && msg.gps.isNone then
    (MsgType.UNKNOWN, 1/5)
  else
    let best := pickBest (MsgType.DISTRESS, dS)
      [(MsgType.GPS, gS), (MsgType.SUPPLY, sS), (MsgType.STATUS, stS)]
    let conf := softclip (best.2 / 3) (1/10) (99/100)
    if best.1 = MsgType.DISTRESS ∧ best.2 ≥ 2 then
      (best.1, softclip (conf + 1/5) 0 1)
    else
      (best.1, conf)

/-- The word whose presence upgrades a GPS message in `prioritize`. -/
def helpWord : String := "help"

/-- `LMLModel.prioritize` from `lml_model.py`.  `queueLen` is the
`queue_len` entry of the `net_ctx` dict; `now` is `time.time()`. -/
def prioritize (msg : Message) (queueLen : ℕ) (now : ℚ) : ℚ :=
  let base : ℚ :=
    match msg.mtype with
    | MsgType.DISTRESS => 95/100
    | MsgType.GPS => 75/100
    | MsgType.SUPPLY => 6/10
    | MsgType.STATUS => 4/10
    | MsgType.UNKNOWN => 3/10
  let age := now - msg.timestamp
  let recency := softclip (1 - age / 600) 0 1
  let congestion := softclip (1 - (queueLen : ℚ) / 50) (2/10) 1
  let prio := base * (7/10) + (25/100) * recency + (5/100) * congestion
  let prio2 :=
    if msg.mtype = MsgType.GPS ∧
        (msg.tagDistress = true ∨ containsSub helpWord.toList (lowerText msg.text) = true) then
      max prio (85/100)
    else prio
  softclip prio2 0 1

/-- The per-candidate statistics dict produced by `Link.stats_for` and
consumed by `LMLModel.route` (all four keys are always present there). -/
structure LinkStats where
  rssi : ℚ
  loss : ℚ
  queue : ℚ
  dist : Option ℚ
deriving DecidableEq, Repr

/-- `link_quality = (rssi + 100)/60.0` from `route`. -/
def link_quality (s : LinkStats) : ℚ := (s.rssi + 100) / 60

/-- `reliability = 1.0 - softclip(loss, 0.0, 0.9)` from `route`. -/
def reliability (s : LinkStats) : ℚ := 1 - softclip s.loss 0 (9/10)

/-- `queue_pen = 1.0/(1.0+q)` from `route`. -/
def queue_pen (s : LinkStats) : ℚ := 1 / (1 + s.queue)

/-- `dist_term = 0.0 if dist is None else 1.0/(1.0+dist)` from `route`. -/
def dist_term (s : LinkStats) : ℚ :=
  match s.dist with
  | none => 0
  | some d => 1 / (1 + d)

/-- Per-candidate score of `LMLModel.route` at message priority
`priority` (the weights scale with `p = softclip(priority, 0, 1)`). -/
def routeScore (priority : ℚ) (s : LinkStats) : ℚ :=
  let p := softclip priority 0 1
  (4/10 + 3/10 * p) * dist_term s + (3/10 + 2/10 * p) * reliability s
    + (2/10) * link_quality s + (1/10) * queue_pen s

/-- `LMLModel.route` from `lml_model.py`.  `next_hops` is the candidate
mapping in dict insertion order; `ctxQueueLen` is the `queue_len` entry
of `net_ctx` (never read by the source); the initial best is the sentinel
`(None, -1e9)`, displaced only by a strictly greater score. -/
def route (next_hops : List (String × LinkStats)) (ctxQueueLen : ℕ)
    (msg : Message) : Option String :=
  if next_hops.isEmpty then none
  else
    (next_hops.foldl
      (fun best x =>
        if routeScore msg.priority x.2 > best.2 then (some x.1, routeScore msg.priority x.2)
        else best)
      ((none : Option String), (-1000000000 : ℚ))).1

/-- The `net_ctx` dict passed to `LMLModel.anomaly_score` (from the node
these are the `_out_stats` counters, but `anomaly_score` accepts any
mapping, so the fields are rationals here). -/
structure AnomCtx where
  in_count : ℚ
  out_count : ℚ
  fail_count : ℚ
  attempts : ℚ
  queue_len : ℚ
deriving DecidableEq, Repr

/-- `LMLModel.anomaly_score` from `lml_model.py`.  `elapsed` is
`now - self._last_tick`; the code floors it at `1e-3` before dividing. -/
def anomaly_score (ctx : AnomCtx) (elapsed : ℚ) : ℚ :=
  let dt := max (1/1000) elapsed
  let in_rate := ctx.in_count / dt
  let out_rate := ctx.out_count / dt
  let fail_rate := ctx.fail_count / max 1 ctx.attempts / dt
  let qterm := softclip (ctx.queue_len / 50) 0 1
  softclip ((6/10) * fail_rate + (3/10) * qterm
    + (1/10) * |in_rate - out_rate| / (1 + in_rate + out_rate)) 0 1

/-- The node's `_out_stats` dict from `mesh.py` (integer counters). -/
structure OutStats where
  in_count : ℕ
  out_count : ℕ
  fail_count : ℕ
  attempts : ℕ
  queue_len : ℕ
deriving DecidableEq, Repr

/-- One counter decay step `int(v * 0.8)` from `Node.run`.  `v` is a
non-negative int, so Python's `int()` truncation is a floor; the float
product `v * 0.8` never crosses an integer boundary for the magnitudes a
counter can reach, so the rational model is exact. -/
def decayCounter (n : ℕ) : ℕ := ⌊(n : ℚ) * (8/10)⌋₊

/-- The `for k in [...]: self._out_stats[k] = int(self._out_stats[k]*0.8)`
loop of `Node.run` (the `queue_len` key is not decayed). -/
def decayStats (s : OutStats) : OutStats :=
  { s with
    in_count := decayCounter s.in_count
    out_count := decayCounter s.out_count
    fail_count := decayCounter s.fail_count
    attempts := decayCounter s.attempts }

/-- The state of a `Node` touched by `process_message`: identity, inbound
queue, rolling counters, delivered sink. -/
structure NodeState where
  id : String
  inQueue : List Message
  outStats : OutStats
  delivered : List Message
deriving DecidableEq, Repr

/-- The classification/priority block of `Node.process_message`: append
self to the path, classify, tag a confident distress, set the priority
(the queue length fed to `prioritize` is the node's current queue). -/
def annotate (st : NodeState) (msg : Message) (now : ℚ) : Message :=
  let m1 := { msg with path := msg.path ++ [st.id] }
  let c := classify m1
  let m2 := { m1 with mtype := c.1 }
  let m3 :=
    if c.1 = MsgType.DISTRESS ∧ c.2 > 7/10 then { m2 with tagDistress := true }
    else m2
  { m3 with priority := prioritize m3 st.inQueue.length now }

/-- `Node.process_message` from `mesh.py` as a state transformer.
`neighborStats` is the `next_hops` mapping built from `Link.stats_for`
(its randomized contents are an input here), `baseLoss` gives
`self.links[nxt].base_loss`, and `lossDraw` is the `random.random()`
transmission draw.  The result is the updated node state, the message
(as left by the call), and the optional `neigh.receive(msg)` hand-off. -/
def process_message (st : NodeState) (msg : Message)
    (neighborStats : List (String × LinkStats)) (baseLoss : String → ℚ)
    (now lossDraw : ℚ) : NodeState × Message × Option (String × Message) :=
  if st.id ∈ msg.path then (st, msg, none)
  else
    let m := annotate st msg now
    if m.dst = none ∨ m.dst = some st.id then
      ({ st with delivered := st.delivered ++ [m] }, m, none)
    else
      match route neighborStats st.inQueue.length m with
      | none => (st, m, none)
      | some nxt =>
        let st1 := { st with outStats :=
          { st.outStats with attempts := st.outStats.attempts + 1 } }
        if lossDraw < baseLoss nxt then
          ({ st1 with outStats :=
            { st1.outStats with fail_count := st1.outStats.fail_count + 1 } }, m, none)
        else
          let m2 := { m with hops := m.hops + 1 }
          ({ st1 with outStats :=
            { st1.outStats with out_count := st1.outStats.out_count + 1 } }, m2, some (nxt, m2))

/-- The identity fields of a message: id, source, destination, text,
geo-coordinate, creation timestamp. -/
def idFields (m : Message) :
    String × String × Option String × String × Option (ℚ × ℚ) × ℚ :=
  (m.id, m.src, m.dst, m.text, m.gps, m.timestamp)

/-! ### Concrete instances used by witnesses and counterexamples -/

/-- Node id used by concrete instances. -/
def idA : String := "n1"

/-- A second node id used by concrete instances. -/
def idB : String := "n2"

/-- A message text containing three distress keywords. -/
def distressText : String := "help mayday sos"

/-- Concrete message for the C2 counterexample: coordinate present,
three distress keywords in the text. -/
def mC2 : Message :=
  { src := idA, dst := none, text := distressText, gps := some (0, 0),
    timestamp := 0, id := idA, tagDistress := false, priority := 0,
    mtype := MsgType.UNKNOWN, hops := 0, path := [] }

/-- Concrete message for the C3 counterexample: no coordinate, three
distress keywords in the text. -/
def mC3 : Message := { mC2 with gps := none }

/-- Concrete whitespace-only message for the C3 witness. -/
def mBlank : Message := { mC2 with text := " ", gps := none }

/-- A text with geo keywords only. -/
def latLonText : String := "lat 10 lon 20"

/-- Concrete coordinate-carrying message with geo-keyword text (C2 witness). -/
def mLatLon : Message := { mC2 with text := latLonText }

/-- Concrete counter snapshot for the C4 counterexample. -/
def statsC4 : OutStats := ⟨3, 0, 0, 0, 0⟩

/-- Concrete counter snapshot for the C4 witness. -/
def statsC4w : OutStats := ⟨5, 4, 3, 2, 1⟩

/-- Single candidate with an absurdly weak signal: its score falls below
the router's `-1e9` sentinel. -/
def sBad : LinkStats := ⟨-1000000000000, 0, 0, none⟩

/-- A realistic single candidate for the C5 witness. -/
def sGood : LinkStats := ⟨-50, 1/10, 0, some 1⟩

/-- Message of priority 1/2 used by routing instances. -/
def mHalf : Message := { mC2 with priority := 1/2 }

/-- Candidate pair with equal rssi/loss/queue and distances -3 < 5: the
code prefers the candidate at distance 5. -/
def candNeg : List (String × LinkStats) :=
  [(idA, ⟨-50, 1/10, 0, some (-3)⟩), (idB, ⟨-50, 1/10, 0, some 5⟩)]

/-- Concrete node state used by process_message witnesses. -/
def stA : NodeState := { id := idA, inQueue := [], outStats := ⟨0, 0, 0, 0, 0⟩, delivered := [] }

/-- Concrete message whose path already contains `idA` (C1 witness). -/
def mSeen : Message := { mC2 with path := [idA] }

/-- Concrete message addressed to another node (C8 witness). -/
def mToB : Message := { mC2 with dst := some idB }

/-! ### Helper lemmas -/

theorem softclip_le_left (x lo hi : ℚ) : lo ≤ softclip x lo hi := le_max_left _ _

theorem softclip_le_right (x lo hi : ℚ) (h : lo ≤ hi) : softclip x lo hi ≤ hi :=
  max_le h (min_le_left _ _)

theorem decayCounter_eq (n : ℕ) : decayCounter n = 4 * n / 5 := by
  unfold decayCounter
  have h : ((n : ℚ) * (8/10)) = ((4 * n : ℕ) : ℚ) / ((5 : ℕ) : ℚ) := by
    push_cast
    ring
  rw [h, Nat.floor_div_nat, Nat.floor_natCast]

theorem annotate_dst (st : NodeState) (msg : Message) (now : ℚ) :
    (annotate st msg now).dst = msg.dst := by
  simp only [annotate]
  split <;> rfl

theorem idFields_annotate (st : NodeState) (msg : Message) (now : ℚ) :
    idFields (annotate st msg now) = idFields msg := by
  simp only [annotate]
  split <;> rfl

/-! ### Claims -/

/-- C1: a node whose id is already in the message path drops the message
without re-appending itself, without forwarding, without delivering:
`process_message` leaves the node state and the message unchanged and
hands nothing to a neighbor. -/
theorem c1_loop_drop_noop (st : NodeState) (msg : Message)
    (ns : List (String × LinkStats)) (bl : String → ℚ) (now draw : ℚ)
    (h : st.id ∈ msg.path) :
    process_message st msg ns bl now draw = (st, msg, none) := by
  simp only [process_message]
  rw [if_pos h]

/-- Witness for C1 at a concrete node and message. -/
theorem c1_loop_drop_noop_witness :
    stA.id ∈ mSeen.path ∧
      process_message stA mSeen [] (fun _ => 0) 0 0 = (stA, mSeen, none) :=
  ⟨by decide, c1_loop_drop_noop stA mSeen [] (fun _ => 0) 0 0 (by decide)⟩

/-- C4 counterexample: after an idle decay step a counter of value 3
holds 2, which is not `0.8 * 3 = 2.4`: the decay is not exact. -/
theorem c4_decay_counterexample :
    ((decayStats statsC4).in_count : ℚ) ≠ (8/10) * (statsC4.in_count : ℚ) := by
  have h1 : (decayStats statsC4).in_count = 2 := by
    show decayCounter 3 = 2
    rw [decayCounter_eq]
  rw [h1, show statsC4.in_count = 3 from rfl]
  norm_num

/-- C4 amended: each idle decay step maps every rolling counter `v` to
`⌊0.8 * v⌋ = 4*v/5` (integer floor, as `int()` truncates), leaves
`queue_len` untouched, and strictly decreases every positive counter, so
counters decay geometrically toward zero only up to truncation. -/
theorem c4_decay_floor (s : OutStats) :
    (decayStats s).in_count = 4 * s.in_count / 5 ∧
    (decayStats s).out_count = 4 * s.out_count / 5 ∧
    (decayStats s).fail_count = 4 * s.fail_count / 5 ∧
    (decayStats s).attempts = 4 * s.attempts / 5 ∧
    (decayStats s).queue_len = s.queue_len ∧
    (0 < s.in_count → (decayStats s).in_count < s.in_count) := by
  refine ⟨decayCounter_eq _, decayCounter_eq _, decayCounter_eq _, decayCounter_eq _, rfl, ?_⟩
  intro hpos
  show decayCounter s.in_count < s.in_count
  rw [decayCounter_eq]
  omega

/-- Witness for C4 amended at a concrete counter snapshot. -/
theorem c4_decay_floor_witness :
    0 < statsC4w.in_count ∧ (decayStats statsC4w).in_count < statsC4w.in_count :=
  ⟨by decide, (c4_decay_floor statsC4w).2.2.2.2.2 (by decide)⟩

/-- C7: `anomaly_score` is total on any context with non-negative inbound
and outbound counts (attempted may be zero): each divisor — the floored
elapsed time, `max(1, attempts)`, and `1 + in_rate + out_rate` — is
strictly positive, and the result lies in `[0, 1]`. -/
theorem c7_anomaly_total_range (ctx : AnomCtx) (elapsed : ℚ)
    (hin : 0 ≤ ctx.in_count) (hout : 0 ≤ ctx.out_count) :
    0 < max (1/1000 : ℚ) elapsed ∧
    0 < max (1 : ℚ) ctx.attempts ∧
    0 < 1 + ctx.in_count / max (1/1000 : ℚ) elapsed
        + ctx.out_count / max (1/1000 : ℚ) elapsed ∧
    0 ≤ anomaly_score ctx elapsed ∧ anomaly_score ctx elapsed ≤ 1 := by
  have hdt : 0 < max (1/1000 : ℚ) elapsed :=
    lt_max_iff.mpr (Or.inl (by norm_num))
  have h1 : 0 ≤ ctx.in_count / max (1/1000 : ℚ) elapsed := div_nonneg hin hdt.le
  have h2 : 0 ≤ ctx.out_count / max (1/1000 : ℚ) elapsed := div_nonneg hout hdt.le
  refine ⟨hdt, lt_max_iff.mpr (Or.inl one_pos), by linarith, ?_, ?_⟩
  · simp only [anomaly_score]
    exact softclip_le_left _ _ _
  · simp only [anomaly_score]
    exact softclip_le_right _ _ _ (by norm_num)

/-- Witness for C7 at the all-zero context (attempted count zero). -/
theorem c7_anomaly_total_range_witness :
    0 ≤ anomaly_score ⟨0, 0, 0, 0, 0⟩ 1 ∧ anomaly_score ⟨0, 0, 0, 0, 0⟩ 1 ≤ 1 :=
  ⟨(c7_anomaly_total_range ⟨0, 0, 0, 0, 0⟩ 1 (by norm_num) (by norm_num)).2.2.2.1,
   (c7_anomaly_total_range ⟨0, 0, 0, 0, 0⟩ 1 (by norm_num) (by norm_num)).2.2.2.2⟩

/-- C10: `route` is deterministic — it draws no randomness, and its
result depends only on the candidate mapping, the context, and the
message's priority: two calls with equal candidates, equal contexts and
equal-priority messages return the same neighbor. -/
theorem c10_route_deterministic (h1 h2 : List (String × LinkStats))
    (c1 c2 : ℕ) (m1 m2 : Message)
    (hh : h1 = h2) (hc : c1 = c2) (hp : m1.priority = m2.priority) :
    route h1 c1 m1 = route h2 c2 m2 := by
  subst hh
  subst hc
  simp only [route, hp]

/-- Witness for C10: two equal concrete calls agree. -/
theorem c10_route_deterministic_witness :
    route [(idA, sGood)] 0 mHalf = route [(idA, sGood)] 0 mHalf :=
  c10_route_deterministic [(idA, sGood)] [(idA, sGood)] 0 0 mHalf mHalf rfl rfl rfl

theorem routeScore_nonneg (p : ℚ) (s : LinkStats)
    (hr : -100 ≤ s.rssi) (hq : 0 ≤ s.queue)
    (hd : ∀ d, s.dist = some d → 0 ≤ d) :
    0 ≤ routeScore p s := by
  have hp0 : (0:ℚ) ≤ softclip p 0 1 := softclip_le_left _ _ _
  have hdt : 0 ≤ dist_term s := by
    cases hsd : s.dist with
    | none => simp [dist_term, hsd]
    | some d =>
      have hd0 := hd d hsd
      simp only [dist_term, hsd]
      exact div_nonneg (by norm_num) (by linarith)
  have hrel : 0 ≤ reliability s := by
    have h9 := softclip_le_right s.loss 0 (9/10) (by norm_num)
    simp only [reliability]
    linarith
  have hlq : 0 ≤ link_quality s := by
    simp only [link_quality]
    linarith
  have hqp : 0 ≤ queue_pen s := by
    simp only [queue_pen]
    exact div_nonneg (by norm_num) (by linarith)
  simp only [routeScore]
  have h1 : 0 ≤ (4/10 + 3/10 * softclip p 0 1) * dist_term s :=
    mul_nonneg (by linarith) hdt
  have h2 : 0 ≤ (3/10 + 2/10 * softclip p 0 1) * reliability s :=
    mul_nonneg (by linarith) hrel
  nlinarith

theorem routeScore_lt_of_dist (p r l q d1 d2 : ℚ) (h1 : 0 ≤ d1) (h12 : d1 < d2) :
    routeScore p ⟨r, l, q, some d2⟩ < routeScore p ⟨r, l, q, some d1⟩ := by
  have hp0 : (0:ℚ) ≤ softclip p 0 1 := softclip_le_left _ _ _
  have hA : 1 / (1 + d2) < 1 / (1 + d1) :=
    one_div_lt_one_div_of_lt (by linarith) (by linarith)
  have hw : (0:ℚ) < 4/10 + 3/10 * softclip p 0 1 := by linarith
  simp only [routeScore, dist_term, reliability, link_quality, queue_pen]
  nlinarith [mul_lt_mul_of_pos_left hA hw]

/-- C5 counterexample: over the single candidate `sBad` (signal -1e12,
everything else benign) the score stays below the `-1e9` sentinel and
`route` returns no neighbor at all — the single candidate is NOT returned
unconditionally. -/
theorem c5_route_counterexample : route [(idA, sBad)] 0 mC2 = none := by
  norm_num [route, routeScore, sBad, mC2, idA, distressText, dist_term,
    reliability, link_quality, queue_pen, softclip,
    List.foldl_cons, List.foldl_nil, List.isEmpty_cons]

/-- C5 amended: `route` on an empty candidate mapping returns none without
failing; on a mapping with exactly one candidate it returns that candidate
whenever the candidate's score exceeds the `-1e9` sentinel (true for every
realistic statistic, e.g. whenever rssi ≥ -100 and queue, distance ≥ 0,
but not for arbitrarily pathological values). -/
theorem c5_route_empty_single (ctx : ℕ) (m : Message) (nid : String) (s : LinkStats)
    (h : (-1000000000 : ℚ) < routeScore m.priority s) :
    route [] ctx m = none ∧ route [(nid, s)] ctx m = some nid := by
  refine ⟨rfl, ?_⟩
  simp only [route, List.isEmpty_cons, Bool.false_eq_true, if_false,
    List.foldl_cons, List.foldl_nil]
  rw [if_pos (show routeScore m.priority s > ((none : Option String), (-1000000000 : ℚ)).2 from h)]

/-- Witness for C5 amended at a concrete realistic candidate. -/
theorem c5_route_empty_single_witness :
    route [] 0 mHalf = none ∧ route [(idA, sGood)] 0 mHalf = some idA :=
  c5_route_empty_single 0 mHalf idA sGood
    (by norm_num [routeScore, sGood, mHalf, mC2, dist_term, reliability,
      link_quality, queue_pen, softclip])

/-- C6 counterexample: two candidates with equal loss, rssi and queue and
known distances -3 < 5 (message priority 1/2 ∈ [0,1]): the code picks the
candidate at distance 5, not the strictly closer one at distance -3. -/
theorem c6_route_counterexample :
    route candNeg 0 mHalf = some idB ∧ idB ≠ idA := by
  constructor
  · norm_num [route, candNeg, routeScore, mHalf, mC2, idA, idB, distressText,
      dist_term, reliability, link_quality, queue_pen, softclip,
      List.foldl_cons, List.foldl_nil, List.isEmpty_cons]
  · decide

/-- C6 amended: for candidates with equal loss, equal rssi and equal queue
and strictly different known distances, `route` picks the strictly closer
candidate (in either presentation order) for every message priority,
provided the shared statistics are realistic: rssi ≥ -100, queue ≥ 0 and
non-negative distances (with negative distances or a score below the
`-1e9` sentinel the code can choose the farther candidate or none). -/
theorem c6_route_prefers_closer (n1 n2 : String) (r l q d1 d2 : ℚ) (ctx : ℕ)
    (m : Message) (hr : -100 ≤ r) (hq : 0 ≤ q) (h1 : 0 ≤ d1) (h12 : d1 < d2) :
    route [(n1, ⟨r, l, q, some d1⟩), (n2, ⟨r, l, q, some d2⟩)] ctx m = some n1 ∧
    route [(n2, ⟨r, l, q, some d2⟩), (n1, ⟨r, l, q, some d1⟩)] ctx m = some n1 := by
  have hs1 : 0 ≤ routeScore m.priority ⟨r, l, q, some d1⟩ :=
    routeScore_nonneg _ _ hr hq (by
      intro d hdd
      injection hdd with hh
      exact hh ▸ h1)
  have hs2 : 0 ≤ routeScore m.priority ⟨r, l, q, some d2⟩ :=
    routeScore_nonneg _ _ hr hq (by
      intro d hdd
      injection hdd with hh
      exact hh ▸ (by linarith : (0:ℚ) ≤ d2))
  have hlt : routeScore m.priority ⟨r, l, q, some d2⟩
      < routeScore m.priority ⟨r, l, q, some d1⟩ :=
    routeScore_lt_of_dist m.priority r l q d1 d2 h1 h12
  constructor
  · simp only [route, List.isEmpty_cons, Bool.false_eq_true, if_false,
      List.foldl_cons, List.foldl_nil]
    rw [if_pos (show routeScore m.priority ⟨r, l, q, some d1⟩
      > ((none : Option String), (-1000000000 : ℚ)).2 by
        show (-1000000000 : ℚ) < _
        linarith)]
    rw [if_neg (show ¬ routeScore m.priority ⟨r, l, q, some d2⟩
      > (some n1, routeScore m.priority ⟨r, l, q, some d1⟩).2 from not_lt.mpr hlt.le)]
  · simp only [route, List.isEmpty_cons, Bool.false_eq_true, if_false,
      List.foldl_cons, List.foldl_nil]
    rw [if_pos (show routeScore m.priority ⟨r, l, q, some d2⟩
      > ((none : Option String), (-1000000000 : ℚ)).2 by
        show (-1000000000 : ℚ) < _
        linarith)]
    rw [if_pos (show routeScore m.priority ⟨r, l, q, some d1⟩
      > (some n2, routeScore m.priority ⟨r, l, q, some d2⟩).2 from hlt)]

/-- Witness for C6 amended at concrete candidates (distances 1 < 2,
priority 1/2). -/
theorem c6_route_prefers_closer_witness :
    route [(idA, ⟨-50, 1/10, 0, some 1⟩), (idB, ⟨-50, 1/10, 0, some 2⟩)] 0 mHalf
      = some idA ∧
    route [(idB, ⟨-50, 1/10, 0, some 2⟩), (idA, ⟨-50, 1/10, 0, some 1⟩)] 0 mHalf
      = some idA :=
  c6_route_prefers_closer idA idB (-50) (1/10) 0 1 2 0 mHalf
    (by norm_num) (by norm_num) (by norm_num) (by norm_num)

theorem pickBest_gps (dS gS sS stS : ℚ) (h1 : dS < gS) (h2 : sS ≤ gS) (h3 : stS ≤ gS) :
    pickBest (MsgType.DISTRESS, dS)
      [(MsgType.GPS, gS), (MsgType.SUPPLY, sS), (MsgType.STATUS, stS)]
      = (MsgType.GPS, gS) := by
  simp only [pickBest, List.foldl_cons, List.foldl_nil]
  split_ifs <;> simp_all <;> linarith

theorem softclip_conf_bounds (x : ℚ) :
    1/10 ≤ softclip x (1/10) (99/100) ∧ softclip x (1/10) (99/100) ≤ 1 :=
  ⟨softclip_le_left _ _ _,
   le_trans (softclip_le_right _ _ _ (by norm_num)) (by norm_num)⟩

theorem softclip_bump_bounds (x : ℚ) :
    1/10 ≤ softclip (softclip x (1/10) (99/100) + 1/5) 0 1 ∧
    softclip (softclip x (1/10) (99/100) + 1/5) 0 1 ≤ 1 := by
  have hlo := softclip_le_left x (1/10) (99/100)
  constructor
  · have h3 : (3/10 : ℚ) ≤ min 1 (softclip x (1/10) (99/100) + 1/5) :=
      le_min (by norm_num) (by linarith)
    have h4 := le_max_right (0 : ℚ) (min 1 (softclip x (1/10) (99/100) + 1/5))
    show 1/10 ≤ max 0 (min 1 (softclip x (1/10) (99/100) + 1/5))
    linarith
  · exact softclip_le_right _ _ _ (by norm_num)

/-- Evaluation of `classify` on the coordinate-free three-distress-keyword
message: three DISTRESS keyword hits, score 3, bumped confidence 1. -/
theorem classify_mC3_eval : classify mC3 = (MsgType.DISTRESS, 1) := by
  have hd : kwScore DISTRESS_KEYWORDS (lowerText mC3.text) = 3 := by decide
  have hg : kwScore GPS_KEYWORDS (lowerText mC3.text) = 0 := by decide
  have hsu : kwScore SUPPLY_KEYWORDS (lowerText mC3.text) = 0 := by decide
  have hst : kwScore STATUS_KEYWORDS (lowerText mC3.text) = 0 := by decide
  have hall : (lowerText mC3.text).all isPySpace = false := by decide
  have hsome : mC3.gps.isSome = false := by decide
  have hnone : mC3.gps.isNone = true := by decide
  norm_num [classify, hd, hg, hsu, hst, hall, hsome, hnone, pickBest,
    List.foldl_cons, List.foldl_nil, softclip]

/-- C2 counterexample: `mC2` carries a coordinate, yet its three distress
keywords (score 3) beat the geo score 0 + 2.5 and `classify` returns
DISTRESS, not GPS. -/
theorem c2_gps_counterexample :
    mC2.gps.isSome = true ∧ (classify mC2).1 = MsgType.DISTRESS ∧
      MsgType.DISTRESS ≠ MsgType.GPS := by
  refine ⟨by decide, ?_, by decide⟩
  have hd : kwScore DISTRESS_KEYWORDS (lowerText mC2.text) = 3 := by decide
  have hg : kwScore GPS_KEYWORDS (lowerText mC2.text) = 0 := by decide
  have hsu : kwScore SUPPLY_KEYWORDS (lowerText mC2.text) = 0 := by decide
  have hst : kwScore STATUS_KEYWORDS (lowerText mC2.text) = 0 := by decide
  have hall : (lowerText mC2.text).all isPySpace = false := by decide
  have hsome : mC2.gps.isSome = true := by decide
  have hnone : mC2.gps.isNone = false := by decide
  norm_num [classify, hd, hg, hsu, hst, hall, hsome, hnone, pickBest,
    List.foldl_cons, List.foldl_nil]

/-- C2 amended: for every message carrying a coordinate, `classify`
returns GPS provided no other category's keyword count exceeds the geo
keyword count by 3 or more (the +2.5 coordinate bonus dominates keyword
tallies only up to that margin; three extra distress keywords override
it). -/
theorem c2_gps_wins (msg : Message)
    (hg : msg.gps.isSome = true)
    (hd : kwScore DISTRESS_KEYWORDS (lowerText msg.text)
        ≤ kwScore GPS_KEYWORDS (lowerText msg.text) + 2)
    (hs : kwScore SUPPLY_KEYWORDS (lowerText msg.text)
        ≤ kwScore GPS_KEYWORDS (lowerText msg.text) + 2)
    (hst : kwScore STATUS_KEYWORDS (lowerText msg.text)
        ≤ kwScore GPS_KEYWORDS (lowerText msg.text) + 2) :
    (classify msg).1 = MsgType.GPS := by
  have hnone : msg.gps.isNone = false := by
    cases hgg : msg.gps with
    | none => rw [hgg] at hg; simp at hg
    | some v => rfl
  have hdq : ((kwScore DISTRESS_KEYWORDS (lowerText msg.text) : ℚ))
      < (kwScore GPS_KEYWORDS (lowerText msg.text) : ℚ) + 5/2 := by
    have hc : ((kwScore DISTRESS_KEYWORDS (lowerText msg.text) : ℚ))
        ≤ (kwScore GPS_KEYWORDS (lowerText msg.text) : ℚ) + 2 := by exact_mod_cast hd
    linarith
  have hsq : ((kwScore SUPPLY_KEYWORDS (lowerText msg.text) : ℚ))
      ≤ (kwScore GPS_KEYWORDS (lowerText msg.text) : ℚ) + 5/2 := by
    have hc : ((kwScore SUPPLY_KEYWORDS (lowerText msg.text) : ℚ))
        ≤ (kwScore GPS_KEYWORDS (lowerText msg.text) : ℚ) + 2 := by exact_mod_cast hs
    linarith
  have hstq : ((kwScore STATUS_KEYWORDS (lowerText msg.text) : ℚ))
      ≤ (kwScore GPS_KEYWORDS (lowerText msg.text) : ℚ) + 5/2 := by
    have hc : ((kwScore STATUS_KEYWORDS (lowerText msg.text) : ℚ))
        ≤ (kwScore GPS_KEYWORDS (lowerText msg.text) : ℚ) + 2 := by exact_mod_cast hst
    linarith
  simp only [classify, hg, hnone, Bool.and_false, Bool.false_eq_true, if_false, if_true]
  rw [pickBest_gps _ _ _ _ hdq hsq hstq]
  simp

/-- Witness for C2 amended: coordinate plus geo-keyword text classifies
as GPS. -/
theorem c2_gps_wins_witness :
    mLatLon.gps.isSome = true ∧ (classify mLatLon).1 = MsgType.GPS :=
  ⟨by decide, c2_gps_wins mLatLon (by decide) (by decide) (by decide) (by decide)⟩

/-- C3 counterexample: the coordinate-free three-distress-keyword message
gets the classified type DISTRESS but confidence 1 > 0.99: the claimed
upper bound 0.99 fails once the DISTRESS +0.2 bump applies. -/
theorem c3_conf_counterexample :
    (classify mC3).1 ≠ MsgType.UNKNOWN ∧ ¬((classify mC3).2 ≤ 99/100) := by
  rw [classify_mC3_eval]
  exact ⟨by decide, by norm_num⟩

/-- C3 amended: for every message, the confidence of a classified
(non-UNKNOWN) type lies in [0.10, 1] — the 0.99 cap can be exceeded (up
to 1) by the DISTRESS +0.2 bump — and whitespace-only text with no
coordinate yields exactly (UNKNOWN, 0.20). -/
theorem c3_conf_amended (msg : Message) :
    ((classify msg).1 ≠ MsgType.UNKNOWN →
      1/10 ≤ (classify msg).2 ∧ (classify msg).2 ≤ 1) ∧
    ((lowerText msg.text).all isPySpace = true ∧ msg.gps = none →
      classify msg = (MsgType.UNKNOWN, 1/5)) := by
  by_cases hcond : ((lowerText msg.text).all isPySpace && msg.gps.isNone) = true
  · constructor
    · intro hne
      exfalso
      apply hne
      simp only [classify]
      rw [if_pos hcond]
    · intro _
      simp only [classify]
      rw [if_pos hcond]
  · constructor
    · intro _
      simp only [classify]
      rw [if_neg hcond]
      split_ifs with h1 h2 h3
      · exact ⟨(softclip_bump_bounds _).1, (softclip_bump_bounds _).2⟩
      · exact ⟨(softclip_conf_bounds _).1, (softclip_conf_bounds _).2⟩
      · exact ⟨(softclip_bump_bounds _).1, (softclip_bump_bounds _).2⟩
      · exact ⟨(softclip_conf_bounds _).1, (softclip_conf_bounds _).2⟩
    · rintro ⟨hall, hnone⟩
      exfalso
      apply hcond
      rw [hall, hnone]
      rfl

/-- Witness for C3 amended: the whitespace-only no-coordinate message
yields exactly (UNKNOWN, 0.20), and the classified `mC3` has confidence
in [0.10, 1]. -/
theorem c3_conf_amended_witness :
    classify mBlank = (MsgType.UNKNOWN, 1/5) ∧
    (1/10 ≤ (classify mC3).2 ∧ (classify mC3).2 ≤ 1) := by
  constructor
  · exact (c3_conf_amended mBlank).2 ⟨by decide, by decide⟩
  · exact (c3_conf_amended mC3).1 (by rw [classify_mC3_eval]; decide)

/-- C8: when the message's destination is some other node and the router
returns no neighbor (as with an empty candidate set — a node with no
links), `process_message` is a silent terminal drop: the node state
(attempts, fail_count, out_count, queue, delivered sink) is unchanged and
nothing is handed to any neighbor. -/
theorem c8_noroute_silent_drop (st : NodeState) (msg : Message)
    (ns : List (String × LinkStats)) (bl : String → ℚ) (now draw : ℚ)
    (h1 : msg.dst ≠ none) (h2 : msg.dst ≠ some st.id)
    (h3 : route ns st.inQueue.length (annotate st msg now) = none) :
    (process_message st msg ns bl now draw).1 = st ∧
    (process_message st msg ns bl now draw).2.2 = none := by
  simp only [process_message]
  by_cases hp : st.id ∈ msg.path
  · rw [if_pos hp]
    exact ⟨rfl, rfl⟩
  · rw [if_neg hp]
    rw [if_neg (show ¬((annotate st msg now).dst = none ∨
        (annotate st msg now).dst = some st.id) by
      rw [annotate_dst]
      push_neg
      exact ⟨h1, h2⟩)]
    rw [h3]
    exact ⟨rfl, rfl⟩

/-- Witness for C8 at a concrete node with no links. -/
theorem c8_noroute_silent_drop_witness :
    (process_message stA mToB [] (fun _ => 0) 0 0).1 = stA ∧
    (process_message stA mToB [] (fun _ => 0) 0 0).2.2 = none :=
  c8_noroute_silent_drop stA mToB [] (fun _ => 0) 0 0 (by decide) (by decide) rfl

/-- C9: `process_message` never changes a message's identity fields (id,
src, dst, text, gps, timestamp) — neither in the message it returns nor
in the message it hands to a neighbor; only type, priority, hops, path
and the meta flag can change. -/
theorem c9_identity_frame (st : NodeState) (msg : Message)
    (ns : List (String × LinkStats)) (bl : String → ℚ) (now draw : ℚ) :
    idFields (process_message st msg ns bl now draw).2.1 = idFields msg ∧
    ((process_message st msg ns bl now draw).2.2).elim True
      (fun x => idFields x.2 = idFields msg) := by
  have hann : idFields (annotate st msg now) = idFields msg :=
    idFields_annotate st msg now
  simp only [process_message]
  split
  · exact ⟨rfl, trivial⟩
  · split
    · exact ⟨hann, trivial⟩
    · split
      · exact ⟨hann, trivial⟩
      · split
        · exact ⟨hann, trivial⟩
        · exact ⟨hann, hann⟩
